import Mathlib

/-!
Verification of the Antares D3D12 API wrapper
(`src/platforms/c-hlsl/evaluator/AntaresHlslLib/D3D12APIWrapper.cpp`).

The C++ runtime is shallowly embedded: each stateful operation becomes a pure
Lean function with explicit state passing, machine integers become `Nat`/`Int`,
C++ strings become `List Char`, fallible code returns `Option`/`Except`, and
driver calls (command-list recording, queue submission, fences) become entries
of an explicit event trace.
-/

/-! ## Resource states and barriers (`dx_buffer_t::StateTransition`) -/

/-- The `D3D12_RESOURCE_STATES` values used by the wrapper. -/
inductive DxResourceState
  | common
  | copyDest
  | copySource
  | nonPixelShaderResource
  | unorderedAccess
  deriving DecidableEq, Repr, Fintype

/-- A barrier recorded into a command list by `ID3D12GraphicsCommandList::ResourceBarrier`. -/
inductive Barrier
  | transition (stateBefore stateAfter : DxResourceState)
  | uav
  deriving DecidableEq, Repr

/-- `dx_buffer_t::StateTransition` (lines 18-43): given the buffer's recorded
`state` and the requested `dstState`, returns the barriers emitted into the
command list and the buffer's new recorded state.
If `dstState != state` a single transition barrier is emitted and the state is
updated; otherwise, if `dstState == D3D12_RESOURCE_STATE_UNORDERED_ACCESS`, a
single UAV barrier is emitted and the state is unchanged; otherwise nothing is
emitted. -/
def StateTransition (state dstState : DxResourceState) : List Barrier × DxResourceState :=
  if dstState ≠ state then
    ([Barrier.transition state dstState], dstState)
  else if dstState = DxResourceState.unorderedAccess then
    ([Barrier.uav], state)
  else
    ([], state)

/-- A sequence of `StateTransition` calls on one buffer within one stream:
returns the per-call barrier lists and the final recorded state. -/
def runTransitions : DxResourceState → List DxResourceState → List (List Barrier) × DxResourceState
  | s, [] => ([], s)
  | s, t :: ts =>
      let r := StateTransition s t
      let rest := runTransitions r.2 ts
      (r.1 :: rest.1, rest.2)

theorem runTransitions_length (s : DxResourceState) (ts : List DxResourceState) :
    (runTransitions s ts).1.length = ts.length := by
  induction ts generalizing s with
  | nil => rfl
  | cons t ts ih => simp [runTransitions, ih]

theorem runTransitions_take_succ (s : DxResourceState) (ts : List DxResourceState)
    (i : Nat) (h : i < ts.length) :
    (runTransitions s (ts.take (i + 1))).2 =
      (StateTransition (runTransitions s (ts.take i)).2 (ts.get ⟨i, h⟩)).2 := by
  induction ts generalizing s i with
  | nil => simp at h
  | cons t ts ih =>
      cases i with
      | zero => simp [runTransitions]
      | succ j =>
          simp only [List.take_succ_cons, runTransitions, List.get_eq_getElem,
            List.getElem_cons_succ]
          exact ih (StateTransition s t).2 j (Nat.lt_of_succ_lt_succ h)

theorem runTransitions_emit (s : DxResourceState) (ts : List DxResourceState)
    (i : Nat) (h : i < ts.length) :
    (runTransitions s ts).1.getD i [] =
      (StateTransition (runTransitions s (ts.take i)).2 (ts.get ⟨i, h⟩)).1 := by
  induction ts generalizing s i with
  | nil => simp at h
  | cons t ts ih =>
      cases i with
      | zero => simp [runTransitions]
      | succ j =>
          simp only [runTransitions, List.getD_cons_succ, List.take_succ_cons,
            List.get_eq_getElem, List.getElem_cons_succ]
          exact ih (StateTransition s t).2 j (Nat.lt_of_succ_lt_succ h)

/-- C1: within one stream, for every sequence of `StateTransition` calls on one
buffer, at every call position `i` (with `pre` the recorded state before the
call and `tgt` the requested target state): a barrier is emitted iff `tgt`
differs from `pre` or `tgt` is the unordered-access (hazard) state; when `tgt`
differs, a single transition barrier is emitted and the recorded state becomes
`tgt`; when `tgt` equals `pre` and is the hazard state, a single UAV barrier is
emitted and the recorded state is unchanged; otherwise no barrier is emitted. -/
theorem C1_state_transition_barriers (s0 : DxResourceState) (ts : List DxResourceState)
    (i : Nat) (h : i < ts.length) :
    (((runTransitions s0 ts).1.getD i [] ≠ []) ↔
        (ts.get ⟨i, h⟩ ≠ (runTransitions s0 (ts.take i)).2 ∨
          ts.get ⟨i, h⟩ = DxResourceState.unorderedAccess)) ∧
    (ts.get ⟨i, h⟩ ≠ (runTransitions s0 (ts.take i)).2 →
        (runTransitions s0 ts).1.getD i [] =
            [Barrier.transition ((runTransitions s0 (ts.take i)).2) (ts.get ⟨i, h⟩)] ∧
        (runTransitions s0 (ts.take (i + 1))).2 = ts.get ⟨i, h⟩) ∧
    (ts.get ⟨i, h⟩ = (runTransitions s0 (ts.take i)).2 →
        ts.get ⟨i, h⟩ = DxResourceState.unorderedAccess →
        (runTransitions s0 ts).1.getD i [] = [Barrier.uav] ∧
        (runTransitions s0 (ts.take (i + 1))).2 = (runTransitions s0 (ts.take i)).2) ∧
    (ts.get ⟨i, h⟩ = (runTransitions s0 (ts.take i)).2 →
        ts.get ⟨i, h⟩ ≠ DxResourceState.unorderedAccess →
        (runTransitions s0 ts).1.getD i [] = []) := by
  rw [runTransitions_emit s0 ts i h, runTransitions_take_succ s0 ts i h]
  generalize (runTransitions s0 (ts.take i)).2 = pre
  generalize ts.get ⟨i, h⟩ = tgt
  revert pre tgt
  decide

/-- Concrete instance of C1: starting from `common`, the call sequence
`[unorderedAccess, unorderedAccess, common]` at position 1 has an unchanged
hazard-state target, so a UAV barrier is emitted there. -/
theorem C1_state_transition_barriers_witness :
    (1 : Nat) < ([DxResourceState.unorderedAccess, DxResourceState.unorderedAccess,
        DxResourceState.common] : List DxResourceState).length ∧
    (runTransitions DxResourceState.common
        [DxResourceState.unorderedAccess, DxResourceState.unorderedAccess,
          DxResourceState.common]).1.getD 1 [] = [Barrier.uav] :=
  ⟨by decide,
    ((C1_state_transition_barriers DxResourceState.common
        [DxResourceState.unorderedAccess, DxResourceState.unorderedAccess,
          DxResourceState.common] 1 (by decide)).2.2.1 (by decide) (by decide)).1⟩

/-! ## Buffer pool (`dxAllocateBuffer` / `dxReleaseBuffer`) -/

/-- The global buffer-pool state: `bufferDict` maps a byte size to its
free-list vector (vector back = list end), `bufferSize` records each created
buffer's `size` field, `nextId` identifies the next freshly created
`dx_buffer_t`, and `driverAllocCount` counts `device.CreateGPUOnlyResource`
calls. -/
structure BufferPool where
  bufferDict : Nat → List Nat
  bufferSize : Nat → Nat
  nextId : Nat
  driverAllocCount : Nat

def BufferPool.init : BufferPool := ⟨fun _ => [], fun _ => 0, 0, 0⟩

/-- `dxAllocateBuffer` (lines 171-191). The C++ reads
`auto buffs = bufferDict[bytes];`, which makes a local COPY of the free-list
vector; `buffs.back()` is returned and `buffs.pop_back()` mutates only that
local copy, so the stored free list is unchanged on the reuse path. On the
miss path a fresh buffer is created through the driver with initial state
`D3D12_RESOURCE_STATE_COMMON`. -/
def dxAllocateBuffer (st : BufferPool) (bytes : Nat) : Nat × BufferPool :=
  let buffs := st.bufferDict bytes
  match buffs.getLast? with
  | some ret => (ret, st)
  | none =>
      (st.nextId,
        { st with
          bufferSize := fun b => if b = st.nextId then bytes else st.bufferSize b,
          nextId := st.nextId + 1,
          driverAllocCount := st.driverAllocCount + 1 })

/-- `dxReleaseBuffer` (lines 193-197): pushes the buffer onto the free list of
its recorded size; no device memory is released. -/
def dxReleaseBuffer (st : BufferPool) (dptr : Nat) : BufferPool :=
  { st with bufferDict := fun s =>
      if s = st.bufferSize dptr then st.bufferDict s ++ [dptr] else st.bufferDict s }

/-- C2 (code bug): `release(allocate(4))` followed by `allocate(4)` does return
the same buffer instance with no new driver allocation, but — because
`dxAllocateBuffer` copies the bucket vector and pops only the copy — the buffer
is NOT removed from the size-4 free list, so yet another `allocate(4)` hands
out the same buffer instance again while it is considered in use. -/
theorem C2_buffer_pool_reuse_code_bug :
    (dxAllocateBuffer
        (dxReleaseBuffer (dxAllocateBuffer BufferPool.init 4).2
          (dxAllocateBuffer BufferPool.init 4).1) 4).1 =
      (dxAllocateBuffer BufferPool.init 4).1 ∧
    (dxAllocateBuffer
        (dxReleaseBuffer (dxAllocateBuffer BufferPool.init 4).2
          (dxAllocateBuffer BufferPool.init 4).1) 4).2.driverAllocCount =
      (dxAllocateBuffer BufferPool.init 4).2.driverAllocCount ∧
    (dxAllocateBuffer
        (dxReleaseBuffer (dxAllocateBuffer BufferPool.init 4).2
          (dxAllocateBuffer BufferPool.init 4).1) 4).2.bufferDict 4 =
      [(dxAllocateBuffer BufferPool.init 4).1] ∧
    (dxAllocateBuffer
        (dxAllocateBuffer
          (dxReleaseBuffer (dxAllocateBuffer BufferPool.init 4).2
            (dxAllocateBuffer BufferPool.init 4).1) 4).2 4).1 =
      (dxAllocateBuffer BufferPool.init 4).1 := by
  refine ⟨rfl, rfl, ?_, rfl⟩
  simp [dxAllocateBuffer, dxReleaseBuffer, BufferPool.init]

/-! ## String scanning (`get_between`) and C `atoi` -/

/-- `std::string::find(pat)`: index of the first occurrence of `pat`, or
`none` for `npos`. -/
def findSub (pat : List Char) : List Char → Option Nat
  | [] => if pat = [] then some 0 else none
  | c :: t =>
      if pat.isPrefixOf (c :: t) then some 0
      else (findSub pat t).map (· + 1)

/-- `get_between` (lines 229-240). If `begin_` is absent the default is
returned. When `begin_` is present but `end_` is absent after it,
`int tail = (int)source.find(end, idx)` is `-1` and the guard that follows
re-checks `idx < 0` (not `tail`), so `source.substr(idx, tail - idx)` is
reached with a negative count; the count converts to a huge `size_t` and
`substr` clamps it, returning the remainder of the string rather than the
default. -/
def get_between (source begin_ end_ dfl : List Char) : List Char :=
  match findSub begin_ source with
  | none => dfl
  | some i =>
      let idx := i + begin_.length
      match (findSub end_ (source.drop idx)).map (· + idx) with
      | none => source.drop idx
      | some tail => (source.drop idx).take (tail - idx)

/-- C3 (code bug): with the `begin` marker present but the terminating `"\n"`
delimiter absent, `get_between` returns the remainder of the source (`"5"`),
not the default `"1"`; the default is produced only when the `begin` marker
itself is absent. -/
theorem C3_get_between_missing_delimiter_code_bug :
    get_between ("// [thread_extent] blockIdx.x = 5".data)
        ("// [thread_extent] blockIdx.x = ".data) ("\n".data) ("1".data) = "5".data ∧
    "5".data ≠ "1".data ∧
    get_between ("void CSMain() ;".data)
        ("// [thread_extent] blockIdx.x = ".data) ("\n".data) ("1".data) = "1".data := by
  refine ⟨?_, by decide, ?_⟩ <;> decide

/-- Decimal value of a digit run (the digits consumed by `std::atoi`). -/
def natOfDigits (l : List Char) : Nat :=
  l.foldl (fun acc c => acc * 10 + (c.toNat - '0'.toNat)) 0

/-- C `atoi`: skip leading whitespace, take an optional sign, then the leading
run of decimal digits (value 0 when there are none). -/
def atoi (l : List Char) : Int :=
  let l1 := l.dropWhile fun c => c == ' ' || c == '\t' || c == '\n' || c == '\r'
  match l1 with
  | '-' :: rest => -(natOfDigits (rest.takeWhile Char.isDigit) : Int)
  | '+' :: rest => (natOfDigits (rest.takeWhile Char.isDigit) : Int)
  | _ => (natOfDigits (l1.takeWhile Char.isDigit) : Int)

/-! ## Launch-geometry annotations (`dxCreateShader`, lines 306-313) -/

/-- One `// [thread_extent] ... = ` annotation:
`std::atoi(get_between(source, marker, "\n", "1").c_str())`. -/
def parseExtent (source marker : List Char) : Int :=
  atoi (get_between source marker ("\n".data) ("1".data))

def blockExtents (source : List Char) : Int × Int × Int :=
  (parseExtent source ("// [thread_extent] blockIdx.x = ".data),
   parseExtent source ("// [thread_extent] blockIdx.y = ".data),
   parseExtent source ("// [thread_extent] blockIdx.z = ".data))

def threadExtents (source : List Char) : Int × Int × Int :=
  (parseExtent source ("// [thread_extent] threadIdx.x = ".data),
   parseExtent source ("// [thread_extent] threadIdx.y = ".data),
   parseExtent source ("// [thread_extent] threadIdx.z = ".data))

/-- `INT64(handle->thread[0]) * handle->thread[1] * handle->thread[2]`. -/
def threadProduct (source : List Char) : Int :=
  (threadExtents source).1 * (threadExtents source).2.1 * (threadExtents source).2.2

structure ShaderGeometry where
  block : Int × Int × Int
  thread : Int × Int × Int
  deriving DecidableEq, Repr

/-- The launch-geometry stage of `dxCreateShader` (lines 306-313): parse the
six annotations and enforce
`assert(INT64(handle->thread[0]) * handle->thread[1] * handle->thread[2] <= 1024)`;
a firing assertion aborts kernel creation (`none`). -/
def dxCreateShaderGeometry (source : List Char) : Option ShaderGeometry :=
  let g : ShaderGeometry := ⟨blockExtents source, threadExtents source⟩
  if threadProduct source ≤ 1024 then some g else none

/-- C6: kernel creation fails on the thread-extent assertion exactly when the
parsed `threadIdx.x * threadIdx.y * threadIdx.z` product exceeds 1024; for a
product of at most 1024 the assertion does not fire and the parsed geometry is
returned. -/
theorem C6_thread_extent_product_limit (source : List Char) :
    (dxCreateShaderGeometry source = none ↔ 1024 < threadProduct source) ∧
    (threadProduct source ≤ 1024 →
      dxCreateShaderGeometry source = some ⟨blockExtents source, threadExtents source⟩) := by
  constructor
  · unfold dxCreateShaderGeometry
    split
    · next hle => simp; omega
    · next hgt => simp; omega
  · intro hle
    unfold dxCreateShaderGeometry
    simp [hle]

/-- Concrete instance of C6: thread extents `(32, 33, 1)` have product
`1056 > 1024`, so creation is rejected; a source with no annotations defaults
to `(1, 1, 1)` and is accepted. -/
theorem C6_thread_extent_product_limit_witness :
    dxCreateShaderGeometry
        ("// [thread_extent] threadIdx.x = 32\n// [thread_extent] threadIdx.y = 33\n".data) =
      none ∧
    dxCreateShaderGeometry [] = some ⟨(1, 1, 1), (1, 1, 1)⟩ :=
  ⟨(C6_thread_extent_product_limit
      ("// [thread_extent] threadIdx.x = 32\n// [thread_extent] threadIdx.y = 33\n".data)).1.mpr
      (by decide),
   (C6_thread_extent_product_limit []).2 (by decide)⟩

/-! ## Datatype byte size (`dx_tensor_t::TypeSize`, lines 55-65) -/

/-- `dx_tensor_t::TypeSize`: scan the dtype name from the end for the first
non-digit character; `std::atoi` of the suffix after it (the maximal trailing
digit run, value 0 when that run is empty) gives the bit width, which must be
divisible by 8; when the loop finds no non-digit (the name is empty or consists
solely of digits) the name is invalid. -/
def TypeSize (dtype : List Char) : Except String Nat :=
  if dtype.reverse.dropWhile Char.isDigit = [] then
    Except.error ("Invalid data type name: " ++ String.mk dtype)
  else
    let bits := natOfDigits (dtype.reverse.takeWhile Char.isDigit).reverse
    if bits % 8 > 0 then
      Except.error "Data type bitsize must align with 8-bit byte type."
    else
      Except.ok (bits / 8)

/-- The claim's "trailing decimal numeral of the name". -/
def trailingNumeral (l : List Char) : Nat :=
  natOfDigits (l.reverse.takeWhile Char.isDigit).reverse

theorem natOfDigits_concat (xs : List Char) (c : Char) :
    natOfDigits (xs ++ [c]) = 10 * natOfDigits xs + (c.toNat - '0'.toNat) := by
  simp [natOfDigits, List.foldl_append, Nat.mul_comm]

/-- C7: the element byte size is the trailing decimal numeral of the datatype
name divided by 8; a trailing numeral not divisible by 8 raises the format
error (in particular every name ending in the digit `'7'` is rejected, its
numeral being odd), and a name consisting entirely of digits raises a format
error as well. -/
theorem C7_type_size_trailing_numeral (l : List Char) :
    ((∀ c ∈ l, c.isDigit) →
        TypeSize l = Except.error ("Invalid data type name: " ++ String.mk l)) ∧
    (¬(∀ c ∈ l, c.isDigit) →
        (trailingNumeral l % 8 = 0 → TypeSize l = Except.ok (trailingNumeral l / 8)) ∧
        (trailingNumeral l % 8 ≠ 0 →
          TypeSize l = Except.error "Data type bitsize must align with 8-bit byte type.")) ∧
    (l.getLast? = some '7' → ∃ e, TypeSize l = Except.error e) := by
  have hiff : (l.reverse.dropWhile Char.isDigit = []) ↔ (∀ c ∈ l, c.isDigit = true) := by
    rw [List.dropWhile_eq_nil_iff]
    simp [List.mem_reverse]
  have hall : (∀ c ∈ l, c.isDigit = true) →
      TypeSize l = Except.error ("Invalid data type name: " ++ String.mk l) := by
    intro h
    unfold TypeSize
    rw [if_pos (hiff.mpr h)]
  have hmain : ¬(∀ c ∈ l, c.isDigit = true) →
      (trailingNumeral l % 8 = 0 → TypeSize l = Except.ok (trailingNumeral l / 8)) ∧
      (trailingNumeral l % 8 ≠ 0 →
        TypeSize l = Except.error "Data type bitsize must align with 8-bit byte type.") := by
    intro h
    have hnd : l.reverse.dropWhile Char.isDigit ≠ [] := fun hc => h (hiff.mp hc)
    constructor
    · intro h8
      simp only [trailingNumeral] at h8
      unfold TypeSize
      rw [if_neg hnd, if_neg (by omega)]
      rfl
    · intro h8
      simp only [trailingNumeral] at h8
      unfold TypeSize
      rw [if_neg hnd, if_pos (by omega)]
  refine ⟨hall, hmain, ?_⟩
  intro h7
  by_cases hd : ∀ c ∈ l, c.isDigit = true
  · exact ⟨_, hall hd⟩
  · refine ⟨_, (hmain hd).2 ?_⟩
    have hrev : l.reverse.head? = some '7' := by
      rw [List.head?_reverse, h7]
    obtain ⟨t, ht⟩ : ∃ t, l.reverse = '7' :: t := by
      cases hl : l.reverse with
      | nil => rw [hl] at hrev; simp at hrev
      | cons a t =>
          rw [hl] at hrev
          simp at hrev
          exact ⟨t, by rw [hrev]⟩
    have : trailingNumeral l = 10 * natOfDigits (t.takeWhile Char.isDigit).reverse + 7 := by
      simp only [trailingNumeral, ht, List.takeWhile_cons]
      rw [if_pos (by decide : ('7'.isDigit = true)), List.reverse_cons, natOfDigits_concat]
      have h77 : '7'.toNat - '0'.toNat = 7 := by decide
      omega
    omega

/-- Concrete instance of C7: `"float32"` has trailing numeral 32 and byte size
4; `"int7"` is rejected (7 not divisible by 8); the all-digit name `"1234"` is
rejected as invalid. -/
theorem C7_type_size_trailing_numeral_witness :
    TypeSize ("float32".data) = Except.ok 4 ∧
    TypeSize ("int7".data) = Except.error "Data type bitsize must align with 8-bit byte type." ∧
    (∃ e, TypeSize ("1234".data) = Except.error e) := by
  refine ⟨?_, ?_, ?_⟩
  · have h := ((C7_type_size_trailing_numeral ("float32".data)).2.1 (by decide)).1 (by decide)
    simpa using h
  · exact ((C7_type_size_trailing_numeral ("int7".data)).2.1 (by decide)).2 (by decide)
  · exact ⟨_, (C7_type_size_trailing_numeral ("1234".data)).1 (by decide)⟩

/-! ## Tensors and shader arguments (`dx_tensor_t`, `dxGetShaderArgumentProperty`) -/

/-- `dx_tensor_t`. -/
structure Tensor where
  shape : List Nat
  name : List Char
  dtype : List Char

/-- `dx_tensor_t::NumElements` (lines 51-53):
`std::accumulate(shape.begin(), shape.end(), 1, multiplies)`. -/
def Tensor.NumElements (t : Tensor) : Nat :=
  t.shape.foldl (· * ·) 1

/-- The metadata part of `dx_shader_t`. -/
structure Shader where
  block : Int × Int × Int
  thread : Int × Int × Int
  inputs : List Tensor
  outputs : List Tensor

/-- `dxGetShaderArgumentProperty` (lines 200-227): the argument at flattened
index `arg_index` is `inputs[arg_index]` when `arg_index < inputs.size()`, else
`outputs[arg_index - inputs.size()]`; the result carries the element count, the
element byte size (a `TypeSize` throw propagates as `Except.error`) and the
dtype name. The C++ does not bounds-check the outputs access (the index is
caller-guaranteed in range); out-of-range is modelled as `none`. -/
def dxGetShaderArgumentProperty (hd : Shader) (argIndex : Nat) :
    Option (Except String (Nat × Nat × List Char)) :=
  if h : argIndex < hd.inputs.length then
    let t := hd.inputs.get ⟨argIndex, h⟩
    some ((TypeSize t.dtype).map fun ts => (t.NumElements, ts, t.dtype))
  else
    match (hd.outputs).get? (argIndex - hd.inputs.length) with
    | some t => some ((TypeSize t.dtype).map fun ts => (t.NumElements, ts, t.dtype))
    | none => none

/-- C10: a datatype name with no trailing digits (and at least one character)
has `TypeSize` 0 with no error — the empty trailing numeral parses to bit
width 0, which passes the divisible-by-8 check — and
`dxGetShaderArgumentProperty` consequently reports element byte size 0 for
such an argument instead of rejecting the name. -/
theorem C10_no_trailing_digits_byte_size_zero (hd : Shader) (i : Nat) (t : Tensor)
    (hit : (hd.inputs ++ hd.outputs).get? i = some t)
    (hne : t.dtype ≠ [])
    (hnd : t.dtype.reverse.takeWhile Char.isDigit = []) :
    TypeSize t.dtype = Except.ok 0 ∧
    dxGetShaderArgumentProperty hd i = some (Except.ok (t.NumElements, 0, t.dtype)) := by
  have hts : TypeSize t.dtype = Except.ok 0 := by
    have hrne : t.dtype.reverse ≠ [] := by
      simpa using hne
    have hdw : t.dtype.reverse.dropWhile Char.isDigit = t.dtype.reverse := by
      cases hr : t.dtype.reverse with
      | nil => exact absurd hr hrne
      | cons a r =>
          have ha : a.isDigit = false := by
            have := List.takeWhile_cons (p := Char.isDigit) (a := a) (l := r)
            rw [hr] at hnd
            rw [List.takeWhile_cons] at hnd
            by_contra hab
            simp only [Bool.not_eq_false] at hab
            rw [if_pos hab] at hnd
            exact List.cons_ne_nil _ _ hnd
          rw [List.dropWhile_cons, ha]
          simp
    unfold TypeSize
    rw [if_neg (by rw [hdw]; exact hrne), hnd]
    simp [natOfDigits]
  refine ⟨hts, ?_⟩
  unfold dxGetShaderArgumentProperty
  by_cases h : i < hd.inputs.length
  · rw [dif_pos h]
    have h1 : hd.inputs.get? i = some t := by
      rw [List.get?_eq_getElem?, ← List.getElem?_append_left h, ← List.get?_eq_getElem?]
      exact hit
    have hget : hd.inputs.get ⟨i, h⟩ = t := by
      rw [List.get?_eq_get h] at h1
      exact Option.some_injective _ h1
    simp only [hget, hts, Except.map]
  · rw [dif_neg h]
    have h1 : hd.outputs.get? (i - hd.inputs.length) = some t := by
      rw [List.get?_eq_getElem?, ← List.getElem?_append_right (Nat.le_of_not_lt h),
        ← List.get?_eq_getElem?]
      exact hit
    rw [h1]
    simp only [hts, Except.map]

/-- Concrete instance of C10: a one-input shader with dtype `"float"` (no
trailing digits) reports element byte size 0 instead of an error. -/
theorem C10_no_trailing_digits_byte_size_zero_witness :
    TypeSize ("float".data) = Except.ok 0 ∧
    dxGetShaderArgumentProperty
        ⟨(1, 1, 1), (1, 1, 1), [⟨[2, 3], "A".data, "float".data⟩], []⟩ 0 =
      some (Except.ok (6, 0, "float".data)) := by
  have h := C10_no_trailing_digits_byte_size_zero
    ⟨(1, 1, 1), (1, 1, 1), [⟨[2, 3], "A".data, "float".data⟩], []⟩ 0
    ⟨[2, 3], "A".data, "float".data⟩ rfl (by decide) (by decide)
  exact ⟨h.1, h.2⟩

/-! ## Command streams (`dx_stream_t`, `dxSubmitStream`, `dxSynchronize`) -/

/-- `dx_stream_t::State`. -/
inductive StreamState
  | inrecord
  | submitted
  deriving DecidableEq, Repr

/-- The mutable fields of `dx_stream_t`; `recorderOpen` tracks whether
`pCmdList` is open for recording (reset) or closed. -/
structure DxStream where
  fenceVal : Nat
  state : StreamState
  descIdxOffset : Nat
  queryHeapsNeedToResolve : List Nat
  recorderOpen : Bool
  deriving DecidableEq, Repr

/-- Driver-visible actions issued by stream operations, in program order. -/
inductive Event
  | resolveQueryData (heapIdx : Nat)
  | closeRecorder
  | executeCommandLists
  | signalFence (v : Nat)
  | waitFence (v : Nat)
  | resetRecorder
  deriving DecidableEq, Repr

/-- The fence side of the Device Context. Modelled from the spec: the fence is
"a monotonically increasing counter the device signals on queue completion";
`device.SignalFence()` (implemented outside this file, in
`d3dx12_antares.h`) bumps the counter and returns the signalled value. -/
structure Device where
  fenceValue : Nat
  deriving DecidableEq, Repr

def Device.SignalFence (d : Device) : Nat × Device :=
  (d.fenceValue + 1, ⟨d.fenceValue + 1⟩)

/-- `dx_stream_t::Reset` (lines 119-130): reset the allocator, reopen the
command list, clear the descriptor cursor, return to `INRECORD`, and clear the
pending query-heap list. -/
def DxStream.Reset (s : DxStream) : DxStream × List Event :=
  ({ s with
      descIdxOffset := 0,
      state := StreamState.inrecord,
      queryHeapsNeedToResolve := [],
      recorderOpen := true },
    [Event.resetRecorder])

/-- `dxSubmitStream` (lines 405-426): a no-op unless the stream is in
`INRECORD`; otherwise resolve every pending query heap, close the recorder,
execute the command list on the queue, signal the fence and store the
signalled value. -/
def dxSubmitStream (d : Device) (s : DxStream) : Device × DxStream × List Event :=
  if s.state = StreamState.inrecord then
    let resolves := s.queryHeapsNeedToResolve.map Event.resolveQueryData
    let r := d.SignalFence
    (r.2,
      { s with state := StreamState.submitted, recorderOpen := false, fenceVal := r.1 },
      resolves ++ [Event.closeRecorder, Event.executeCommandLists, Event.signalFence r.1])
  else
    (d, s, [])

/-- `dxSynchronize` (lines 428-441): submit first when still recording, wait
for the stream's stored fence value, then `Reset`. -/
def dxSynchronize (d : Device) (s : DxStream) : Device × DxStream × List Event :=
  let r1 := if s.state = StreamState.inrecord then dxSubmitStream d s else (d, s, [])
  let r2 := r1.2.1.Reset
  (r1.1, r2.1, r1.2.2 ++ [Event.waitFence r1.2.1.fenceVal] ++ r2.2)

/-- Number of `ExecuteCommandLists` calls (queue submissions) in a trace. -/
def countQueueSubmissions (evs : List Event) : Nat :=
  evs.count Event.executeCommandLists

/-- C4: `dxSubmitStream` on a stream already in `SUBMITTED` state performs no
action at all — no query-heap resolution, no recorder close, no queue
submission, no fence signal, no change to the stored fence value or any other
stream field — and two submissions in a row produce exactly one queue
submission when the stream was recording (none when it was already
submitted). -/
theorem C4_submit_idempotent (d : Device) (s : DxStream) :
    (s.state = StreamState.submitted → dxSubmitStream d s = (d, s, [])) ∧
    (dxSubmitStream (dxSubmitStream d s).1 (dxSubmitStream d s).2.1 =
      ((dxSubmitStream d s).1, (dxSubmitStream d s).2.1, [])) ∧
    (countQueueSubmissions
        ((dxSubmitStream d s).2.2 ++
          (dxSubmitStream (dxSubmitStream d s).1 (dxSubmitStream d s).2.1).2.2) =
      if s.state = StreamState.inrecord then 1 else 0) := by
  have hres : ∀ l : List Nat,
      countQueueSubmissions (l.map Event.resolveQueryData) = 0 := by
    intro l
    simp [countQueueSubmissions, List.count_eq_zero]
  cases hs : s.state with
  | inrecord =>
      refine ⟨by simp [hs], ?_, ?_⟩
      · simp [dxSubmitStream, hs]
      · simp only [dxSubmitStream, hs, if_pos, reduceIte]
        simp only [countQueueSubmissions] at hres ⊢
        simp [hres, countQueueSubmissions, List.count_append, List.count_cons]
  | submitted =>
      have hno : dxSubmitStream d s = (d, s, []) := by
        simp [dxSubmitStream, hs]
      refine ⟨fun _ => hno, ?_, ?_⟩
      · rw [hno]
        exact hno
      · rw [hno]
        simp [hno, hs, countQueueSubmissions]

/-- Concrete instance of C4: a submitted stream is left untouched with an
empty trace, and two submissions of a recording stream yield one queue
submission. -/
theorem C4_submit_idempotent_witness :
    dxSubmitStream ⟨7⟩ ⟨3, StreamState.submitted, 5, [0], false⟩ =
      (⟨7⟩, ⟨3, StreamState.submitted, 5, [0], false⟩, []) ∧
    countQueueSubmissions
        ((dxSubmitStream ⟨0⟩ ⟨0, StreamState.inrecord, 0, [], true⟩).2.2 ++
          (dxSubmitStream (dxSubmitStream ⟨0⟩ ⟨0, StreamState.inrecord, 0, [], true⟩).1
            (dxSubmitStream ⟨0⟩ ⟨0, StreamState.inrecord, 0, [], true⟩).2.1).2.2) = 1 := by
  constructor
  · exact (C4_submit_idempotent ⟨7⟩ ⟨3, StreamState.submitted, 5, [0], false⟩).1 rfl
  · have h := (C4_submit_idempotent ⟨0⟩ ⟨0, StreamState.inrecord, 0, [], true⟩).2.2
    simpa using h

/-- C5: `dxSynchronize`, from either stream state, first submits when the
stream is still recording, waits until the device fence reaches the stream's
stored fence value, and always leaves the stream in `INRECORD` with the
descriptor-table cursor reset to 0, the pending-query-heap list empty, and the
recorder reopened. -/
theorem C5_synchronize_resets (d : Device) (s : DxStream) :
    (dxSynchronize d s).2.1.state = StreamState.inrecord ∧
    (dxSynchronize d s).2.1.descIdxOffset = 0 ∧
    (dxSynchronize d s).2.1.queryHeapsNeedToResolve = [] ∧
    (dxSynchronize d s).2.1.recorderOpen = true ∧
    (dxSynchronize d s).2.2 =
      (if s.state = StreamState.inrecord then (dxSubmitStream d s).2.2 else []) ++
        [Event.waitFence (dxSynchronize d s).2.1.fenceVal, Event.resetRecorder] := by
  cases hs : s.state with
  | inrecord => simp [dxSynchronize, dxSubmitStream, DxStream.Reset, hs]
  | submitted => simp [dxSynchronize, dxSubmitStream, DxStream.Reset, hs]

/-! ## Kernel launch, descriptor-table strategy (`dxLaunchShaderAsync`) -/

/-- The per-stream descriptor heap capacity created by `dxCreateStream`
(lines 381-393): `const UINT MAX_HEAP_SIZE = 65536`. -/
def MAX_HEAP_SIZE : Nat := 65536

/-- The descriptor-table bookkeeping of `dxLaunchShaderAsync` (lines 498-574,
`_USE_DESCRIPTOR_HEAP_` strategy): after `assert(pStream->state == INRECORD)`
(modelled as `none` on failure), the stream's cursor `descIdxOffset` advances
by `inputs.size() + outputs.size()`; the C++ performs no comparison of the
cursor against the heap capacity. -/
def dxLaunchShaderAsync (hd : Shader) (s : DxStream) : Option DxStream :=
  if s.state = StreamState.inrecord then
    some { s with
      descIdxOffset := s.descIdxOffset + hd.inputs.length + hd.outputs.length }
  else
    none

/-- C8 counterexample: launching a 2-argument kernel on a recording stream
whose cursor already stands at 65535 succeeds and moves the cursor to
65537 > 65536 = `MAX_HEAP_SIZE`; no guard treats the overflow as fatal, so the
claim that the operation "guards against the cursor exceeding the table's
fixed capacity" is false. -/
theorem C8_launch_capacity_unguarded_counterexample :
    dxLaunchShaderAsync
        ⟨(1, 1, 1), (1, 1, 1), [⟨[1], "A".data, "float32".data⟩],
          [⟨[1], "B".data, "float32".data⟩]⟩
        ⟨0, StreamState.inrecord, 65535, [], true⟩ =
      some ⟨0, StreamState.inrecord, 65537, [], true⟩ ∧
    MAX_HEAP_SIZE < 65537 := by
  constructor
  · rfl
  · decide

/-- C8 (amended): on a recording stream, every launch advances the
descriptor-table cursor by exactly the kernel's argument count
(inputs + outputs), unconditionally — no capacity check is made. -/
theorem C8_launch_cursor_advances_by_arg_count (hd : Shader) (s : DxStream)
    (h : s.state = StreamState.inrecord) :
    dxLaunchShaderAsync hd s =
      some { s with
        descIdxOffset := s.descIdxOffset + hd.inputs.length + hd.outputs.length } := by
  simp [dxLaunchShaderAsync, h]

/-- Concrete instance of the amended C8. -/
theorem C8_launch_cursor_advances_by_arg_count_witness :
    dxLaunchShaderAsync
        ⟨(1, 1, 1), (1, 1, 1), [⟨[1], "A".data, "float32".data⟩], []⟩
        ⟨0, StreamState.inrecord, 3, [], true⟩ =
      some ⟨0, StreamState.inrecord, 4, [], true⟩ :=
  C8_launch_cursor_advances_by_arg_count
    ⟨(1, 1, 1), (1, 1, 1), [⟨[1], "A".data, "float32".data⟩], []⟩
    ⟨0, StreamState.inrecord, 3, [], true⟩ rfl

/-! ## Query pool (`dxCreateQuery` / `dxDestroyQuery`) -/

/-- The bookkeeping fields of `dx_query_heap_t`. -/
structure QueryHeapRec where
  curIdx : Nat
  totSize : Nat
  deriving DecidableEq, Repr

/-- `dx_query_t`. -/
structure DxQuery where
  heapIdx : Nat
  queryIdxInHeap : Nat
  deriving DecidableEq, Repr

/-- The globals `globalQueryHeaps` and `globalFreeQueries` (lines 149-153);
vector back = list end. -/
structure QueryPool where
  globalQueryHeaps : List QueryHeapRec
  globalFreeQueries : List DxQuery
  deriving DecidableEq, Repr

def QueryPool.init : QueryPool := ⟨[], []⟩

/-- `const UINT MAX_QUERY_NUM = 1024` (line 594). -/
def MAX_QUERY_NUM : Nat := 1024

/-- `dxCreateQuery` (lines 576-636): pop the back of the free list when it is
non-empty; otherwise, when there is no heap or the last heap's cursor has
reached its capacity (`curIdx >= totSize`), append a fresh heap of capacity
`MAX_QUERY_NUM`; then hand out slot `curIdx` of the last heap and bump its
cursor. -/
def dxCreateQuery (p : QueryPool) : DxQuery × QueryPool :=
  match p.globalFreeQueries.getLast? with
  | some q => (q, { p with globalFreeQueries := p.globalFreeQueries.dropLast })
  | none =>
      let needNewHeap :=
        match p.globalQueryHeaps.getLast? with
        | none => true
        | some h => h.totSize ≤ h.curIdx
      let heaps :=
        if needNewHeap then p.globalQueryHeaps ++ [⟨0, MAX_QUERY_NUM⟩]
        else p.globalQueryHeaps
      let h := heaps.getLastD ⟨0, MAX_QUERY_NUM⟩
      (⟨heaps.length - 1, h.curIdx⟩,
        { p with globalQueryHeaps := heaps.dropLast ++ [{ h with curIdx := h.curIdx + 1 }] })

/-- `dxDestroyQuery` (lines 638-647): push the query onto the free list; heap
storage is never released. -/
def dxDestroyQuery (p : QueryPool) (q : DxQuery) : QueryPool :=
  { p with globalFreeQueries := p.globalFreeQueries ++ [q] }

/-- `n` successive `dxCreateQuery` calls. -/
def dxCreateQueries (p : QueryPool) : Nat → QueryPool
  | 0 => p
  | n + 1 => (dxCreateQuery (dxCreateQueries p n)).2

/-- From the empty pool, `n ≤ 1024` creations fill the single heap to `n`. -/
theorem dxCreateQueries_init_eq (n : Nat) (h1 : 1 ≤ n) (h2 : n ≤ MAX_QUERY_NUM) :
    dxCreateQueries QueryPool.init n = ⟨[⟨n, MAX_QUERY_NUM⟩], []⟩ := by
  induction n with
  | zero => omega
  | succ m ih =>
      by_cases hm : m = 0
      · subst hm
        rfl
      · have ihm := ih (by omega) (by omega)
        have hlt : decide (MAX_QUERY_NUM ≤ m) = false := by
          simp only [decide_eq_false_iff_not]
          omega
        simp only [dxCreateQueries, ihm]
        simp [dxCreateQuery, hlt]

/-- C9: `dxCreateQuery` pops the back of the free list when it is non-empty
(heaps untouched); with an empty free list it appends a fresh heap exactly
when no heap exists or the last heap is full, handing out slot 0 of the new
heap, and otherwise hands out the next unused slot of the last heap without
growing the heap list; destroying a query and creating another returns the
very same (heapIdx, slot) pair and leaves the pool unchanged; and 1025
creations from the empty pool (capacity 1024 per heap) grow the heap list to
exactly two heaps. -/
theorem C9_query_pool_reuse_and_growth (p : QueryPool) (q : DxQuery) :
    (p.globalFreeQueries.getLast? = some q →
        dxCreateQuery p =
          (q, { p with globalFreeQueries := p.globalFreeQueries.dropLast })) ∧
    (p.globalFreeQueries = [] →
        (p.globalQueryHeaps = [] ∨
          ∃ h, p.globalQueryHeaps.getLast? = some h ∧ h.totSize ≤ h.curIdx) →
        (dxCreateQuery p).1 = ⟨p.globalQueryHeaps.length, 0⟩ ∧
        (dxCreateQuery p).2.globalQueryHeaps.length = p.globalQueryHeaps.length + 1) ∧
    (p.globalFreeQueries = [] →
        (∃ h, p.globalQueryHeaps.getLast? = some h ∧ h.curIdx < h.totSize) →
        (dxCreateQuery p).1 =
          ⟨p.globalQueryHeaps.length - 1,
            (p.globalQueryHeaps.getLastD ⟨0, MAX_QUERY_NUM⟩).curIdx⟩ ∧
        (dxCreateQuery p).2.globalQueryHeaps.length = p.globalQueryHeaps.length) ∧
    (dxCreateQuery (dxDestroyQuery p q) = (q, p)) ∧
    ((dxCreateQueries QueryPool.init (MAX_QUERY_NUM + 1)).globalQueryHeaps.length = 2) := by
  obtain ⟨heaps, free⟩ := p
  refine ⟨?_, ?_, ?_, ?_, ?_⟩
  · intro hq
    simp [dxCreateQuery, hq]
  · intro hf hfull
    subst hf
    rcases hfull with hnil | ⟨h, hlast, hge⟩
    · subst hnil
      simp [dxCreateQuery, MAX_QUERY_NUM]
    · obtain ⟨l, hl⟩ := List.getLast?_eq_some_iff.mp hlast
      subst hl
      simp only [dxCreateQuery, List.getLast?_nil, List.getLast?_concat, hge,
        decide_True, if_true, List.getLastD_concat, List.dropLast_concat, List.length_append,
        List.length_cons, List.length_nil]
      exact ⟨rfl, by simp [List.dropLast_concat]⟩
  · intro hf hroom
    subst hf
    obtain ⟨h, hlast, hlt⟩ := hroom
    obtain ⟨l, hl⟩ := List.getLast?_eq_some_iff.mp hlast
    subst hl
    have hngeb : decide (h.totSize ≤ h.curIdx) = false := by
      simp only [decide_eq_false_iff_not]
      omega
    simp only [dxCreateQuery, List.getLast?_nil, List.getLast?_concat, hngeb,
      Bool.false_eq_true, if_false, List.getLastD_concat, List.dropLast_concat,
      List.length_append, List.length_cons, List.length_nil]
    exact ⟨trivial, by simp⟩
  · simp [dxCreateQuery, dxDestroyQuery, List.getLast?_concat, List.dropLast_concat]
  · have hstep : dxCreateQueries QueryPool.init (MAX_QUERY_NUM + 1) =
        (dxCreateQuery (dxCreateQueries QueryPool.init MAX_QUERY_NUM)).2 := by
      rw [dxCreateQueries]
    rw [hstep, dxCreateQueries_init_eq MAX_QUERY_NUM (by decide) (Nat.le_refl _)]
    rfl

/-- Concrete instance of C9: a pool whose free list holds `(0, 3)` hands that
pair back (heap list untouched); destroying `(0, 0)` on the empty pool and
creating again returns `(0, 0)` and the unchanged pool; 1025 creations from
the empty pool grow the heap list to two heaps. -/
theorem C9_query_pool_reuse_and_growth_witness :
    dxCreateQuery ⟨[⟨5, MAX_QUERY_NUM⟩], [⟨0, 3⟩]⟩ =
      (⟨0, 3⟩, ⟨[⟨5, MAX_QUERY_NUM⟩], []⟩) ∧
    dxCreateQuery (dxDestroyQuery QueryPool.init ⟨0, 0⟩) = (⟨0, 0⟩, QueryPool.init) ∧
    (dxCreateQueries QueryPool.init (MAX_QUERY_NUM + 1)).globalQueryHeaps.length = 2 := by
  refine ⟨?_, ?_, ?_⟩
  · have h := (C9_query_pool_reuse_and_growth ⟨[⟨5, MAX_QUERY_NUM⟩], [⟨0, 3⟩]⟩ ⟨0, 3⟩).1 rfl
    simpa using h
  · exact (C9_query_pool_reuse_and_growth QueryPool.init ⟨0, 0⟩).2.2.2.1
  · exact (C9_query_pool_reuse_and_growth QueryPool.init ⟨0, 0⟩).2.2.2.2
